import Mathlib

/-!
Verification development for the kilometers-cli MCP proxy.

Shallow embedding of the core of the program: the filter pipeline
(src/filters/mod.rs and the concrete filters), tier resolution and
pipeline composition (src/main.rs / src/handlers.rs, handle_monitor and
get_jwt_token_with_cache), token expiry (src/auth.rs), and the stdio
relay's request/response correlation and exit propagation (src/proxy.rs).

Rust strings are Lean String, Vec<String> is List String,
HashMap<String,String> is an association list, u64 is Nat, and f32 risk
scores / thresholds are modelled as Rat (only ordering comparisons are
performed on them in the source; numeric rendering in messages is
modelled by Rat's toString).  Fallible operations (anyhow::Result) are
Except String.  Effects of the environment (HTTP responses, cache state,
child exit status) are passed in as explicit values.
-/

namespace KmCli

/-! ## Data model of the filter pipeline (src/filters/mod.rs) -/

/-- `ProxyRequest { command, args, metadata }` from src/filters/mod.rs. -/
structure ProxyRequest where
  command : String
  args : List String
  metadata : List (String × String)
deriving DecidableEq, Repr

/-- `ProxyContext { request, jwt_token, metadata }` from src/filters/mod.rs. -/
structure ProxyContext where
  request : ProxyRequest
  jwt_token : String
  metadata : List (String × String)
deriving DecidableEq, Repr

/-- `FilterDecision` from src/filters/mod.rs: Allow, Block{reason},
Transform{new_request}. -/
inductive FilterDecision where
  | allow : FilterDecision
  | block (reason : String) : FilterDecision
  | transform (new_request : ProxyRequest) : FilterDecision
deriving DecidableEq, Repr

/-- The `ProxyFilter` trait object: `check`, `is_blocking`, `name`.
`check` returns `Except String FilterDecision`, modelling
`Result<FilterDecision>`. -/
structure Filter where
  check : ProxyContext → Except String FilterDecision
  is_blocking : Bool
  name : String

/-- The loop body of `FilterPipeline::execute` (src/filters/mod.rs lines
65-99), iterating the filters in order against the threaded context.
A failing check aborts with `"Filter {name} failed: {e}"` when the filter
is blocking and is skipped otherwise; `Block` aborts with
`"Request blocked by {name}: {reason}"`; `Transform` replaces
`ctx.request`; when the list is exhausted the current request is
returned. -/
def executeFrom : List Filter → ProxyContext → Except String ProxyRequest
  | [], ctx => Except.ok ctx.request
  | f :: rest, ctx =>
    match f.check ctx with
    | Except.error e =>
      if f.is_blocking then
        Except.error ("Filter " ++ f.name ++ " failed: " ++ e)
      else
        executeFrom rest ctx
    | Except.ok FilterDecision.allow => executeFrom rest ctx
    | Except.ok (FilterDecision.block reason) =>
      Except.error ("Request blocked by " ++ f.name ++ ": " ++ reason)
    | Except.ok (FilterDecision.transform nr) =>
      executeFrom rest { ctx with request := nr }

/-- `FilterPipeline` holds the ordered filter list. -/
structure FilterPipeline where
  filters : List Filter

/-- `FilterPipeline::execute`. -/
def FilterPipeline.execute (p : FilterPipeline) (ctx : ProxyContext) :
    Except String ProxyRequest :=
  executeFrom p.filters ctx

/-- Instrumentation of the same loop: the sequence of `check` invocations
that actually happen, each recorded as (filter name, context it is given).
Mirrors `executeFrom` branch for branch. -/
def invokedTrace : List Filter → ProxyContext → List (String × ProxyContext)
  | [], _ => []
  | f :: rest, ctx =>
    (f.name, ctx) ::
    match f.check ctx with
    | Except.error _ =>
      if f.is_blocking then [] else invokedTrace rest ctx
    | Except.ok FilterDecision.allow => invokedTrace rest ctx
    | Except.ok (FilterDecision.block _) => []
    | Except.ok (FilterDecision.transform nr) =>
      invokedTrace rest { ctx with request := nr }

/-- The context reached after running an initial segment of the filter
list without aborting (`none` when that segment blocks or fails
blockingly).  Mirrors the context-threading of `executeFrom`. -/
def threadCtx : List Filter → ProxyContext → Option ProxyContext
  | [], ctx => some ctx
  | f :: rest, ctx =>
    match f.check ctx with
    | Except.error _ =>
      if f.is_blocking then none else threadCtx rest ctx
    | Except.ok FilterDecision.allow => threadCtx rest ctx
    | Except.ok (FilterDecision.block _) => none
    | Except.ok (FilterDecision.transform nr) =>
      threadCtx rest { ctx with request := nr }

/-- The tail of `handle_monitor` (src/main.rs lines 238-248): run the
pipeline; on `Ok(filtered_request)` execute the proxy with it, on `Err`
return `"Request blocked: {e}"` without launching. `runChild` stands for
`proxy::run_proxy` applied to the filtered request. -/
def monitorExec (fs : List Filter) (ctx : ProxyContext)
    (runChild : ProxyRequest → Except String Unit) : Except String Unit :=
  match executeFrom fs ctx with
  | Except.ok filtered => runChild filtered
  | Except.error e => Except.error ("Request blocked: " ++ e)

/-- The launch command actually handed to `proxy::run_proxy`, if any. -/
def launchedRequest (fs : List Filter) (ctx : ProxyContext) :
    Option ProxyRequest :=
  match executeFrom fs ctx with
  | Except.ok filtered => some filtered
  | Except.error _ => none

/-- `s` contains `sub` as a substring. -/
def containsStr (s sub : String) : Prop :=
  ∃ a b : String, s = a ++ sub ++ b

/-! ## Auth: tokens and expiry (src/auth.rs) -/

/-- `JwtClaims` from src/auth.rs. -/
structure JwtClaims where
  sub : Option String
  tier : Option String
  exp : Option Nat
  iat : Option Nat
  user_id : Option String
deriving DecidableEq, Repr

/-- `JwtToken` from src/auth.rs; `expires_at` is unix seconds (u64). -/
structure JwtToken where
  token : String
  expires_at : Nat
  claims : JwtClaims
  refresh_token : Option String
deriving DecidableEq, Repr

/-- `AuthClient::is_token_expired` (src/auth.rs lines 118-125), with the
wall clock made an explicit parameter: `token.expires_at <= now + 60`. -/
def isTokenExpired (tok : JwtToken) (now : Nat) : Bool :=
  tok.expires_at ≤ now + 60

/-! ## Token cache and session resolution
(src/main.rs `get_jwt_token_with_cache`, lines 90-135, and the tier
resolution in `handle_monitor`, lines 173-183) -/

/-- The environment `get_jwt_token_with_cache` interacts with:
the result of `TokenCache::new()`, whether `cache_exists()` holds, and
the result of `load_token()`.  (`save_token` failures only produce a
warning and never change the returned value, so they are not modelled.) -/
structure TokenCacheEnv where
  init : Except String Unit
  cacheExists : Bool
  load : Except String JwtToken
deriving Repr

/-- `get_jwt_token_with_cache` (src/main.rs lines 90-135) with the cache
environment, the clock and the outcome of
`AuthClient::exchange_for_jwt()` made explicit: cache-init failure gives
`None`; a cached, unexpired token is returned; otherwise a successful
exchange gives its token and any exchange failure gives `None`. -/
def getJwtTokenWithCache (env : TokenCacheEnv) (now : Nat)
    (exchange : Except String JwtToken) : Option JwtToken :=
  match env.init with
  | Except.error _ => none
  | Except.ok _ =>
    let fetchNew : Option JwtToken :=
      match exchange with
      | Except.ok newTok => some newTok
      | Except.error _ => none
    if env.cacheExists then
      match env.load with
      | Except.ok cached =>
        if ¬ isTokenExpired cached now then some cached else fetchNew
      | Except.error _ => fetchNew
    else
      fetchNew

/-- Whether the cache alone would yield a token (init succeeded, the
cache exists, loads, and the loaded token is unexpired): the only
situation in which `get_jwt_token_with_cache` can succeed without a
successful exchange. -/
def validCachedToken (env : TokenCacheEnv) (now : Nat) : Option JwtToken :=
  match env.init with
  | Except.error _ => none
  | Except.ok _ =>
    if env.cacheExists then
      match env.load with
      | Except.ok cached =>
        if ¬ isTokenExpired cached now then some cached else none
      | Except.error _ => none
    else
      none

/-- Tier resolution from `handle_monitor` (src/main.rs lines 173-183):
with a token, `override_tier.or(token.claims.tier).unwrap_or("free")`;
without one, `("free", None)`. -/
def resolveTier (override_tier : Option String) (tok : Option JwtToken) :
    String × Option JwtToken :=
  match tok with
  | some token =>
    ((override_tier.orElse fun _ => token.claims.tier).getD "free", some token)
  | none => ("free", none)

/-! ## Pipeline composition (src/main.rs / src/handlers.rs,
`handle_monitor`, lines 194-236 / 258-300) -/

/-- The identity (constructor and constructor arguments) of a filter
placed into the pipeline by `handle_monitor`. -/
inductive PipelineFilterKind where
  | localLogger (log_path : String) : PipelineFilterKind
  | eventSender (endpoint : String) (token : JwtToken) : PipelineFilterKind
  | riskAnalysis (endpoint : String) (threshold : ℚ) : PipelineFilterKind
deriving DecidableEq, Repr

/-- String-level model of
`log_file.parent().unwrap_or(Path::new(".")).join("km_commands.log")`:
the directory part of the log path, joined with "km_commands.log". -/
def kmCommandsLogPath (log_file : String) : String :=
  let parts := log_file.splitOn "/"
  match parts.dropLast with
  | [] => "km_commands.log"
  | ps => String.intercalate "/" ps ++ "/km_commands.log"

/-- The pipeline assembled by `handle_monitor`
(src/main.rs lines 194-236, identical in src/handlers.rs lines 258-300):
`local_only` or no token gives `[LocalLogger(km_commands.log)]`;
otherwise `[LocalLogger(log_file), EventSender(api_url/api/events/telemetry)]`
with `RiskAnalysis(api_url/api/risk/analyze, 0.8)` appended iff
`user_tier != "free"`. -/
def composePipeline (local_only : Bool) (jwt_token : Option JwtToken)
    (user_tier api_url log_file : String) : List PipelineFilterKind :=
  if local_only || jwt_token.isNone then
    [PipelineFilterKind.localLogger (kmCommandsLogPath log_file)]
  else
    match jwt_token with
    | some token =>
      let base :=
        [PipelineFilterKind.localLogger log_file,
         PipelineFilterKind.eventSender (api_url ++ "/api/events/telemetry") token]
      if user_tier ≠ "free" then
        base ++ [PipelineFilterKind.riskAnalysis (api_url ++ "/api/risk/analyze") (4 / 5 : ℚ)]
      else
        base
    | none =>
      -- dead fallback branch of handle_monitor ("should not happen but be safe")
      [PipelineFilterKind.localLogger (kmCommandsLogPath log_file)]

/-! ## LocalLoggerFilter (src/filters/local_logger.rs) -/

/-- The `LogEntry` record `log_request` serialises to the command
metadata log (timestamp omitted: wall clock). -/
structure CommandLogEntry where
  command : String
  args : List String
  user_tier : String
  metadata : List (String × String)
deriving DecidableEq, Repr

/-- `LocalLoggerFilter::log_request` (src/filters/local_logger.rs lines
29-48): the record it appends, given the tier string it is passed. -/
def localLoggerLogRequest (ctx : ProxyContext) (user_tier : String) :
    CommandLogEntry :=
  { command := ctx.request.command
    args := ctx.request.args
    user_tier := user_tier
    metadata := ctx.request.metadata }

/-- The record appended by `LocalLoggerFilter::check`
(src/filters/local_logger.rs lines 53-64): `log_request(ctx, "free")`,
with the tier hardcoded at the call site. -/
def localLoggerEntry (ctx : ProxyContext) : CommandLogEntry :=
  localLoggerLogRequest ctx "free"

/-- `LocalLoggerFilter` as a pipeline filter: `check` swallows any
write failure and always returns `Ok(Allow)`; non-blocking; named
"LocalLogger". -/
def localLoggerFilter : Filter :=
  { check := fun _ => Except.ok FilterDecision.allow
    is_blocking := false
    name := "LocalLogger" }

/-! ## RiskAnalysisFilter (src/filters/risk_analysis.rs) -/

/-- `TransformSuggestion` from src/filters/risk_analysis.rs. -/
structure TransformSuggestion where
  command : Option String
  args : Option (List String)
  reason : String
deriving DecidableEq, Repr

/-- `RiskAnalysisResponse` from src/filters/risk_analysis.rs
(`details` dropped: dead code; scores as Rat). -/
structure RiskAnalysisResponse where
  risk_score : ℚ
  risk_level : String
  recommendation : String
  suggested_transform : Option TransformSuggestion
deriving DecidableEq, Repr

/-- The Block reason format string of `RiskAnalysisFilter::check`:
`"Risk score {score} exceeds threshold {threshold}. {recommendation}"`. -/
def riskBlockReason (score threshold : ℚ) (recommendation : String) : String :=
  "Risk score " ++ toString score ++ " exceeds threshold "
    ++ toString threshold ++ ". " ++ recommendation

/-- The decision logic of `RiskAnalysisFilter::check`
(src/filters/risk_analysis.rs lines 78-116) on a successfully parsed
analysis response: strictly-greater score blocks; otherwise a suggested
transform with a new command and/or args rewrites exactly the supplied
fields of the request; otherwise Allow. -/
def riskCheckOnSuccess (threshold : ℚ) (req : ProxyRequest)
    (analysis : RiskAnalysisResponse) : FilterDecision :=
  if analysis.risk_score > threshold then
    FilterDecision.block
      (riskBlockReason analysis.risk_score threshold analysis.recommendation)
  else
    match analysis.suggested_transform with
    | some tr =>
      if tr.command.isSome || tr.args.isSome then
        FilterDecision.transform
          { req with
            command := tr.command.getD req.command
            args := tr.args.getD req.args }
      else
        FilterDecision.allow
    | none => FilterDecision.allow

/-- Full `RiskAnalysisFilter::check`, with the HTTP outcome of
`analyze_risk` explicit: a failed or unparsable response propagates as
the check's error (handled by the pipeline's non-blocking policy, since
`is_blocking` is false for this filter). -/
def riskAnalysisCheck (threshold : ℚ) (req : ProxyRequest)
    (analyzeResult : Except String RiskAnalysisResponse) :
    Except String FilterDecision :=
  match analyzeResult with
  | Except.ok analysis => Except.ok (riskCheckOnSuccess threshold req analysis)
  | Except.error e => Except.error e

/-! ## Stdio relay: correlation and exit propagation (src/proxy.rs) -/

/-- A JSON-RPC `id` value used as correlation key (the source keys a
HashMap by the raw serde_json::Value of the id). -/
inductive JsonId where
  | num (n : Int) : JsonId
  | str (s : String) : JsonId
deriving DecidableEq, Repr

/-- Parse outcome of a relayed line, as far as the relay inspects it:
not JSON at all, or a JSON object with/without a `jsonrpc` key and
with/without an `id`. -/
inductive ParsedJson where
  | notJson : ParsedJson
  | obj (hasJsonrpc : Bool) (id : Option JsonId) : ParsedJson
deriving DecidableEq, Repr

/-- One relayed line: raw content together with its parse outcome. -/
structure RelayLine where
  content : String
  parsed : ParsedJson
deriving DecidableEq, Repr

/-- The shared `request_timings : HashMap<Value, Instant>` as an
association list from id to the instant (Nat) the request was seen. -/
def Timings := List (JsonId × Nat)

/-- HashMap lookup. -/
def timingsLookup (m : Timings) (i : JsonId) : Option Nat :=
  (List.find? (fun p => p.1 = i) m).map (fun p => p.2)

/-- `HashMap::insert` (overwrite semantics). -/
def timingsInsert (m : Timings) (i : JsonId) (t : Nat) : Timings :=
  (i, t) :: List.filter (fun p => p.1 ≠ i) m

/-- The traffic log entry written by `log_mcp_traffic`
(src/proxy.rs lines 51-70); the RFC3339 timestamp is omitted (wall
clock). -/
structure TrafficLogEntry where
  direction : String
  content : String
  duration_ms : Option Nat
deriving DecidableEq, Repr

/-- The stdin-thread loop body of `run_proxy` (src/proxy.rs lines
94-142) for one line: log a request entry with no duration, and insert
`(id, now)` into the shared timings map when the line parses as JSON
with a `jsonrpc` key and an `id`. -/
def processRequestLine (m : Timings) (line : RelayLine) (now : Nat) :
    TrafficLogEntry × Timings :=
  let m' :=
    match line.parsed with
    | ParsedJson.obj true (some i) => timingsInsert m i now
    | _ => m
  ({ direction := "request", content := line.content, duration_ms := none }, m')

/-- The stdout-thread loop body of `run_proxy` (src/proxy.rs lines
145-198) for one line: when the line parses as JSON with a `jsonrpc`
key and an `id` present in the timings map, remove the entry and log a
response entry carrying `duration_ms = now - started_at`; otherwise log
a response entry without a duration and leave the map alone. -/
def processResponseLine (m : Timings) (line : RelayLine) (now : Nat) :
    TrafficLogEntry × Timings :=
  match line.parsed with
  | ParsedJson.obj true (some i) =>
    match timingsLookup m i with
    | some startedAt =>
      ({ direction := "response", content := line.content,
         duration_ms := some (now - startedAt) },
       List.filter (fun p => p.1 ≠ i) m)
    | none =>
      ({ direction := "response", content := line.content,
         duration_ms := none }, m)
  | _ =>
    ({ direction := "response", content := line.content,
       duration_ms := none }, m)

/-- Child exit status: `code = some c` for a normal exit with code `c`,
`none` for termination by signal. `ExitStatus::success()` is
`code == some 0`. -/
structure ExitStatus where
  code : Option Int
deriving DecidableEq, Repr

/-- `ExitStatus::success`. -/
def ExitStatus.success (s : ExitStatus) : Bool :=
  s.code = some 0

/-- The diagnostic of the failure branch of `run_proxy`'s final wait. -/
def childFailMessage (s : ExitStatus) : String :=
  "Child process failed with status: " ++
    (match s.code with
     | some c => toString c
     | none => "signal")

/-- The tail of `run_proxy` (src/proxy.rs lines 200-223): after both
relay threads are joined, wait for the child and propagate — success
maps to `Ok(())`, an unsuccessful status to an error, and a failure of
`wait` itself to that error. -/
def runProxyWait (waitResult : Except String ExitStatus) :
    Except String Unit :=
  match waitResult with
  | Except.ok status =>
    if status.success then Except.ok () else Except.error (childFailMessage status)
  | Except.error e => Except.error e

/-- `run_proxy` at the level the exit-propagation claim needs: a spawn
failure is returned immediately; otherwise the relay runs and the final
child status is propagated by `runProxyWait`. -/
def runProxyModel (spawnResult : Except String Unit)
    (waitResult : Except String ExitStatus) : Except String Unit :=
  match spawnResult with
  | Except.error e => Except.error e
  | Except.ok _ => runProxyWait waitResult

/-- The process exit code of the km binary for a given `main` outcome:
anyhow's behaviour, 0 on `Ok` and 1 on `Err`. -/
def kmExitCode : Except String Unit → Nat
  | Except.ok _ => 0
  | Except.error _ => 1

/-! ## Helper lemmas about the pipeline loop -/

/-- Executing past a non-aborting initial segment continues from the
context that segment threads to. -/
theorem executeFrom_append (pre fs : List Filter) (ctx ctx' : ProxyContext)
    (h : threadCtx pre ctx = some ctx') :
    executeFrom (pre ++ fs) ctx = executeFrom fs ctx' := by
  induction pre generalizing ctx with
  | nil =>
    simp only [threadCtx, Option.some.injEq] at h
    subst h
    rfl
  | cons f pre ih =>
    cases hc : f.check ctx with
    | error e =>
      cases hb : f.is_blocking with
      | true => simp [threadCtx, hc, hb] at h
      | false =>
        simp only [threadCtx, hc, hb] at h
        simp only [List.cons_append, executeFrom, hc, hb]
        simp only [Bool.false_eq_true, if_false] at h ⊢
        exact ih _ h
    | ok d =>
      cases d with
      | allow =>
        simp only [threadCtx, hc] at h
        simp only [List.cons_append, executeFrom, hc]
        exact ih _ h
      | block r => simp [threadCtx, hc] at h
      | transform nr =>
        simp only [threadCtx, hc] at h
        simp only [List.cons_append, executeFrom, hc]
        exact ih _ h

/-- The invocation trace across a non-aborting initial segment splits at
the threaded context. -/
theorem invokedTrace_append (pre fs : List Filter) (ctx ctx' : ProxyContext)
    (h : threadCtx pre ctx = some ctx') :
    invokedTrace (pre ++ fs) ctx
      = invokedTrace pre ctx ++ invokedTrace fs ctx' := by
  induction pre generalizing ctx with
  | nil =>
    simp only [threadCtx, Option.some.injEq] at h
    subst h
    rfl
  | cons f pre ih =>
    cases hc : f.check ctx with
    | error e =>
      cases hb : f.is_blocking with
      | true => simp [threadCtx, hc, hb] at h
      | false =>
        simp only [threadCtx, hc, hb] at h
        simp only [List.cons_append, invokedTrace, hc, hb]
        simp only [Bool.false_eq_true, if_false, List.append_eq] at h ⊢
        rw [ih _ h]
    | ok d =>
      cases d with
      | allow =>
        simp only [threadCtx, hc] at h
        simp only [List.cons_append, invokedTrace, hc, List.append_eq]
        rw [ih _ h]
      | block r => simp [threadCtx, hc] at h
      | transform nr =>
        simp only [threadCtx, hc] at h
        simp only [List.cons_append, invokedTrace, hc, List.append_eq]
        rw [ih _ h]

/-- A run in which every filter, on the fixed context it is given,
either allows or fails non-blockingly: the request passes through
unchanged and every filter is invoked with that same context. -/
theorem allowRun (fs : List Filter) (ctx : ProxyContext)
    (h : ∀ g ∈ fs, g.check ctx = Except.ok FilterDecision.allow
         ∨ (g.is_blocking = false ∧ ∃ e, g.check ctx = Except.error e)) :
    executeFrom fs ctx = Except.ok ctx.request
    ∧ invokedTrace fs ctx = fs.map (fun g => (g.name, ctx)) := by
  induction fs with
  | nil => exact ⟨rfl, rfl⟩
  | cons g fs ih =>
    have hrest : ∀ g' ∈ fs, g'.check ctx = Except.ok FilterDecision.allow
        ∨ (g'.is_blocking = false ∧ ∃ e, g'.check ctx = Except.error e) :=
      fun g' hg' => h g' (List.mem_cons_of_mem _ hg')
    rcases h g (List.mem_cons_self _ _) with hok | ⟨hb, e, he⟩
    · constructor
      · simp only [executeFrom, hok]
        exact (ih hrest).1
      · simp only [invokedTrace, hok, List.map_cons]
        rw [(ih hrest).2]
    · constructor
      · simp only [executeFrom, he, hb, Bool.false_eq_true, if_false]
        exact (ih hrest).1
      · simp only [invokedTrace, he, hb, Bool.false_eq_true, if_false,
          List.map_cons]
        rw [(ih hrest).2]

/-- After erasing an id from the timings map, looking it up fails. -/
theorem timingsLookup_erase (m : Timings) (i : JsonId) :
    timingsLookup (List.filter (fun p => p.1 ≠ i) m) i = none := by
  induction m with
  | nil => rfl
  | cons p m ih =>
    by_cases hp : p.1 = i
    · simp only [List.filter_cons, hp]
      simp only [ne_eq, not_true_eq_false, decide_False, Bool.false_eq_true,
        if_false]
      exact ih
    · simp only [List.filter_cons, ne_eq, hp, not_false_eq_true, decide_True,
        if_true, timingsLookup, List.find?, decide_eq_true_eq, if_false]
      exact ih

/-- Looking up the id just inserted yields the inserted instant. -/
theorem timingsLookup_insert (m : Timings) (i : JsonId) (t : Nat) :
    timingsLookup (timingsInsert m i t) i = some t := by
  simp [timingsLookup, timingsInsert, List.find?]

/-! ## Concrete fixtures used by witnesses and counterexamples -/

/-- A token with the given expiry and no claims. -/
def tokAt (e : Nat) : JwtToken :=
  { token := "tok"
    expires_at := e
    claims := { sub := none, tier := none, exp := none, iat := none,
                user_id := none }
    refresh_token := none }

/-- An authenticated token whose tier claim is "free". -/
def tokFree : JwtToken :=
  { token := "jwt"
    expires_at := 2000
    claims := { sub := none, tier := some "free", exp := none, iat := none,
                user_id := none }
    refresh_token := none }

/-- An authenticated token whose tier claim is "pro". -/
def tokPro : JwtToken :=
  { token := "jwt2"
    expires_at := 2000
    claims := { sub := none, tier := some "pro", exp := none, iat := none,
                user_id := none }
    refresh_token := none }

/-- A concrete pipeline context. -/
def ctx0 : ProxyContext :=
  { request := { command := "npx", args := ["server"], metadata := [] }
    jwt_token := ""
    metadata := [] }

/-! ## Claims -/

/-- C6: token expiry is decided by the pure predicate
`is_expired(token, now) = (token.expires_at <= now + 60)`; for a fixed
now, a token expiring 59 seconds from now is reported expired and a
token expiring 61 seconds from now is reported not expired. -/
theorem c6_expiry_boundary :
    (∀ (tok : JwtToken) (now : Nat),
       isTokenExpired tok now = true ↔ tok.expires_at ≤ now + 60)
    ∧ (∀ (now : Nat) (t59 t61 : JwtToken),
       t59.expires_at = now + 59 → t61.expires_at = now + 61 →
       isTokenExpired t59 now = true ∧ isTokenExpired t61 now = false) := by
  constructor
  · intro tok now
    simp [isTokenExpired]
  · intro now t59 t61 h59 h61
    constructor
    · simp only [isTokenExpired, h59, decide_eq_true_eq]
      omega
    · simp only [isTokenExpired, h61, decide_eq_false_iff_not]
      omega

/-- Witness for C6 at now = 1000: a token expiring at 1059 is expired,
one expiring at 1061 is not. -/
theorem c6_expiry_boundary_witness :
    isTokenExpired (tokAt 1059) 1000 = true
    ∧ isTokenExpired (tokAt 1061) 1000 = false :=
  c6_expiry_boundary.2 1000 (tokAt 1059) (tokAt 1061) rfl rfl

/-- C10: every record LocalLoggerFilter appends to the command-metadata
log has user_tier equal to the literal "free": `check` calls
`log_request(ctx, "free")` with the tier hardcoded, irrespective of the
session's resolved tier, and always allows. -/
theorem c10_local_logger_hardcoded_tier :
    ∀ ctx : ProxyContext,
      (localLoggerEntry ctx).user_tier = "free"
      ∧ localLoggerEntry ctx = localLoggerLogRequest ctx "free"
      ∧ localLoggerFilter.check ctx = Except.ok FilterDecision.allow :=
  fun _ => ⟨rfl, rfl, rfl⟩

/-- C9: after the relay loops finish, run_proxy waits for the child and
propagates its status: a successful exit gives Ok, a failed status gives
an error, and a non-zero child exit code yields a non-zero proxy exit
code. -/
theorem c9_exit_propagation :
    (∀ s : ExitStatus, s.code = some 0 →
       runProxyWait (Except.ok s) = Except.ok ()
       ∧ kmExitCode (runProxyWait (Except.ok s)) = 0)
    ∧ (∀ s : ExitStatus, s.success = false →
       runProxyWait (Except.ok s) = Except.error (childFailMessage s)
       ∧ kmExitCode (runProxyWait (Except.ok s)) ≠ 0)
    ∧ (∀ c : Int, c ≠ 0 →
       kmExitCode (runProxyModel (Except.ok ()) (Except.ok ⟨some c⟩)) ≠ 0) := by
  refine ⟨?_, ?_, ?_⟩
  · intro s h
    constructor
    · simp [runProxyWait, ExitStatus.success, h]
    · simp [runProxyWait, ExitStatus.success, h, kmExitCode]
  · intro s h
    constructor
    · simp [runProxyWait, h]
    · simp [runProxyWait, h, kmExitCode]
  · intro c hc
    simp [runProxyModel, runProxyWait, ExitStatus.success, hc, kmExitCode]

/-- Witness for C9: a child exit of 0 propagates as Ok / exit code 0;
a child exit of 3 propagates as an error / non-zero exit code. -/
theorem c9_exit_propagation_witness :
    (runProxyWait (Except.ok ⟨some 0⟩) = Except.ok ()
     ∧ kmExitCode (runProxyWait (Except.ok ⟨some 0⟩)) = 0)
    ∧ (runProxyWait (Except.ok ⟨some 3⟩)
         = Except.error (childFailMessage ⟨some 3⟩)
       ∧ kmExitCode (runProxyWait (Except.ok ⟨some 3⟩)) ≠ 0)
    ∧ kmExitCode (runProxyModel (Except.ok ()) (Except.ok ⟨some 3⟩)) ≠ 0 :=
  ⟨c9_exit_propagation.1 ⟨some 0⟩ rfl,
   c9_exit_propagation.2.1 ⟨some 3⟩ (by decide),
   c9_exit_propagation.2.2 3 (by decide)⟩

/-- C5: in the relay, a response line parsing as JSON with a jsonrpc key
and an id has duration_ms populated (and the pending entry removed) when
the id is in the pending-correlation map, and duration_ms absent when it
is not; request lines carrying an id insert the pending entry. -/
theorem c5_correlation :
    (∀ (m : Timings) (line : RelayLine) (now : Nat) (i : JsonId) (t0 : Nat),
       line.parsed = ParsedJson.obj true (some i) →
       timingsLookup m i = some t0 →
       (processResponseLine m line now).1.duration_ms = some (now - t0)
       ∧ timingsLookup (processResponseLine m line now).2 i = none)
    ∧ (∀ (m : Timings) (line : RelayLine) (now : Nat) (i : JsonId),
       line.parsed = ParsedJson.obj true (some i) →
       timingsLookup m i = none →
       (processResponseLine m line now).1.duration_ms = none
       ∧ (processResponseLine m line now).2 = m)
    ∧ (∀ (m : Timings) (content : String) (i : JsonId) (now : Nat),
       timingsLookup
         (processRequestLine m ⟨content, ParsedJson.obj true (some i)⟩ now).2 i
         = some now
       ∧ (processRequestLine m
            ⟨content, ParsedJson.obj true (some i)⟩ now).1.duration_ms
         = none) := by
  refine ⟨?_, ?_, ?_⟩
  · intro m line now i t0 hp hl
    obtain ⟨content, parsed⟩ := line
    simp only at hp
    subst hp
    constructor
    · simp [processResponseLine, hl]
    · simp only [processResponseLine, hl]
      exact timingsLookup_erase m i
  · intro m line now i hp hl
    obtain ⟨content, parsed⟩ := line
    simp only at hp
    subst hp
    constructor
    · simp [processResponseLine, hl]
    · simp [processResponseLine, hl]
  · intro m content i now
    constructor
    · simp only [processRequestLine]
      exact timingsLookup_insert m i now
    · rfl

/-- Witness for C5: with id 7 pending since instant 100, a response with
id 7 at instant 250 logs duration 150 and clears the entry; a response
with id 8 logs no duration; a request with id 7 inserts the entry. -/
theorem c5_correlation_witness :
    ((processResponseLine [(JsonId.num 7, 100)]
        ⟨"resp7", ParsedJson.obj true (some (JsonId.num 7))⟩ 250).1.duration_ms
      = some 150
     ∧ timingsLookup
         (processResponseLine [(JsonId.num 7, 100)]
           ⟨"resp7", ParsedJson.obj true (some (JsonId.num 7))⟩ 250).2
         (JsonId.num 7)
       = none)
    ∧ ((processResponseLine [(JsonId.num 7, 100)]
         ⟨"resp8", ParsedJson.obj true (some (JsonId.num 8))⟩ 250).1.duration_ms
      = none)
    ∧ timingsLookup
        (processRequestLine []
          ⟨"req7", ParsedJson.obj true (some (JsonId.num 7))⟩ 100).2
        (JsonId.num 7)
      = some 100 := by
  refine ⟨?_, ?_, ?_⟩
  · have h := c5_correlation.1 [(JsonId.num 7, 100)]
      ⟨"resp7", ParsedJson.obj true (some (JsonId.num 7))⟩ 250
      (JsonId.num 7) 100 rfl (by decide)
    exact h
  · have h := c5_correlation.2.1 [(JsonId.num 7, 100)]
      ⟨"resp8", ParsedJson.obj true (some (JsonId.num 8))⟩ 250
      (JsonId.num 8) rfl (by decide)
    exact h.1
  · have h := c5_correlation.2.2 [] "req7" (JsonId.num 7) 100
    exact h.1

/-- C8: on a successful risk-analysis response, check blocks (with a
reason containing the score, the threshold and the recommendation)
exactly when risk_score is strictly greater than the threshold;
otherwise a suggested_transform carrying a new command and/or args
yields Transform replacing only the supplied fields; otherwise Allow;
and a score exactly equal to the threshold never blocks. -/
theorem c8_risk_decision :
    (∀ (th : ℚ) (req : ProxyRequest) (a : RiskAnalysisResponse),
       a.risk_score > th →
       riskCheckOnSuccess th req a
         = FilterDecision.block
             (riskBlockReason a.risk_score th a.recommendation)
       ∧ containsStr (riskBlockReason a.risk_score th a.recommendation)
           (toString a.risk_score)
       ∧ containsStr (riskBlockReason a.risk_score th a.recommendation)
           (toString th)
       ∧ containsStr (riskBlockReason a.risk_score th a.recommendation)
           a.recommendation)
    ∧ (∀ (th : ℚ) (req : ProxyRequest) (a : RiskAnalysisResponse)
         (tr : TransformSuggestion),
       ¬ a.risk_score > th →
       a.suggested_transform = some tr →
       (tr.command.isSome || tr.args.isSome) = true →
       riskCheckOnSuccess th req a
         = FilterDecision.transform
             { command := tr.command.getD req.command
               args := tr.args.getD req.args
               metadata := req.metadata })
    ∧ (∀ (th : ℚ) (req : ProxyRequest) (a : RiskAnalysisResponse),
       ¬ a.risk_score > th →
       a.suggested_transform = none →
       riskCheckOnSuccess th req a = FilterDecision.allow)
    ∧ (∀ (th : ℚ) (req : ProxyRequest) (a : RiskAnalysisResponse)
         (tr : TransformSuggestion),
       ¬ a.risk_score > th →
       a.suggested_transform = some tr →
       tr.command = none → tr.args = none →
       riskCheckOnSuccess th req a = FilterDecision.allow)
    ∧ (∀ (th : ℚ) (req : ProxyRequest) (a : RiskAnalysisResponse),
       a.risk_score = th →
       ∀ r, riskCheckOnSuccess th req a ≠ FilterDecision.block r) := by
  refine ⟨?_, ?_, ?_, ?_, ?_⟩
  · intro th req a hgt
    refine ⟨by simp [riskCheckOnSuccess, hgt], ?_, ?_, ?_⟩
    · exact ⟨"Risk score ",
        " exceeds threshold " ++ toString th ++ ". " ++ a.recommendation,
        by simp [riskBlockReason, String.append_assoc]⟩
    · exact ⟨"Risk score " ++ toString a.risk_score ++ " exceeds threshold ",
        ". " ++ a.recommendation,
        by simp [riskBlockReason, String.append_assoc]⟩
    · exact ⟨"Risk score " ++ toString a.risk_score ++ " exceeds threshold "
          ++ toString th ++ ". ", "",
        by simp [riskBlockReason, String.append_assoc]⟩
  · intro th req a tr hng hst htr
    simp [riskCheckOnSuccess, hng, hst, htr]
  · intro th req a hng hst
    simp [riskCheckOnSuccess, hng, hst]
  · intro th req a tr hng hst hc ha
    simp [riskCheckOnSuccess, hng, hst, hc, ha]
  · intro th req a heq r
    have hng : ¬ a.risk_score > th := by rw [heq]; exact lt_irrefl th
    simp only [riskCheckOnSuccess, if_neg hng]
    cases hst : a.suggested_transform with
    | none => simp
    | some tr =>
      by_cases hc : (tr.command.isSome || tr.args.isSome) = true
      · simp [hc]
      · simp [hc]

/-- Witness for C8: threshold 0.8; a score of 0.9 blocks; a score of 0.5
with a suggested command rewrite transforms; a score of 0.8 (equal to
the threshold) with no suggestion allows and does not block. -/
theorem c8_risk_decision_witness :
    riskCheckOnSuccess (4/5)
        { command := "npx", args := ["s"], metadata := [] }
        { risk_score := 9/10, risk_level := "high",
          recommendation := "do not run", suggested_transform := none }
      = FilterDecision.block
          (riskBlockReason (9/10) (4/5) "do not run")
    ∧ riskCheckOnSuccess (4/5)
        { command := "npx", args := ["s"], metadata := [] }
        { risk_score := 1/2, risk_level := "low", recommendation := "ok",
          suggested_transform :=
            some { command := some "safe", args := none, reason := "swap" } }
      = FilterDecision.transform
          { command := "safe", args := ["s"], metadata := [] }
    ∧ riskCheckOnSuccess (4/5)
        { command := "npx", args := ["s"], metadata := [] }
        { risk_score := 4/5, risk_level := "mid", recommendation := "ok",
          suggested_transform := none }
      = FilterDecision.allow
    ∧ ∀ r, riskCheckOnSuccess (4/5)
        { command := "npx", args := ["s"], metadata := [] }
        { risk_score := 4/5, risk_level := "mid", recommendation := "ok",
          suggested_transform := none }
      ≠ FilterDecision.block r := by
  refine ⟨?_, ?_, ?_, ?_⟩
  · exact (c8_risk_decision.1 (4/5) _ _ (by norm_num)).1
  · exact c8_risk_decision.2.1 (4/5) _ _
      { command := some "safe", args := none, reason := "swap" }
      (by norm_num) rfl rfl
  · exact c8_risk_decision.2.2.1 (4/5) _ _ (by norm_num) rfl
  · exact c8_risk_decision.2.2.2.2 (4/5) _ _ rfl

/-- C1 counterexample: an authenticated session (not local-only) whose
resolved tier is "free" — e.g. a token claiming tier "free" and no
override — is assembled the pipeline [LocalLogger, EventSender], not
exactly [LocalLogger]: the single-LocalLogger branch of handle_monitor
triggers on `local_only || jwt_token.is_none()`, not on the tier. -/
theorem c1_counterexample :
    resolveTier none (some tokFree) = ("free", some tokFree)
    ∧ composePipeline false (some tokFree) "free" "https://api.kilometers.ai"
        "mcp_traffic.jsonl"
      = [PipelineFilterKind.localLogger "mcp_traffic.jsonl",
         PipelineFilterKind.eventSender
           "https://api.kilometers.ai/api/events/telemetry" tokFree]
    ∧ (composePipeline false (some tokFree) "free" "https://api.kilometers.ai"
        "mcp_traffic.jsonl").length ≠ 1 := by
  refine ⟨rfl, rfl, ?_⟩
  have h : composePipeline false (some tokFree) "free"
      "https://api.kilometers.ai" "mcp_traffic.jsonl"
    = [PipelineFilterKind.localLogger "mcp_traffic.jsonl",
       PipelineFilterKind.eventSender
         "https://api.kilometers.ai/api/events/telemetry" tokFree] := rfl
  rw [h]
  decide

/-- C1 (amended): the assembled pipeline is exactly [LocalLogger] when
the session is unauthenticated (--local-only or no token); when a token
was obtained it is [LocalLogger, EventSender], with
RiskAnalysis(threshold=0.8) appended exactly when the resolved tier is
not "free". -/
theorem c1_pipeline_composition :
    (∀ (local_only : Bool) (tok : Option JwtToken) (tier url log : String),
       (local_only = true ∨ tok = none) →
       composePipeline local_only tok tier url log
         = [PipelineFilterKind.localLogger (kmCommandsLogPath log)])
    ∧ (∀ (tok : JwtToken) (tier url log : String),
       tier ≠ "free" →
       composePipeline false (some tok) tier url log
         = [PipelineFilterKind.localLogger log,
            PipelineFilterKind.eventSender (url ++ "/api/events/telemetry") tok,
            PipelineFilterKind.riskAnalysis (url ++ "/api/risk/analyze")
              (4/5 : ℚ)])
    ∧ (∀ (tok : JwtToken) (url log : String),
       composePipeline false (some tok) "free" url log
         = [PipelineFilterKind.localLogger log,
            PipelineFilterKind.eventSender
              (url ++ "/api/events/telemetry") tok]) := by
  refine ⟨?_, ?_, ?_⟩
  · intro local_only tok tier url log h
    rcases h with h | h
    · subst h
      simp [composePipeline]
    · subst h
      simp [composePipeline]
  · intro tok tier url log h
    simp [composePipeline, h]
  · intro tok url log
    simp [composePipeline]

/-- Witness for C1 (amended): local-only gives [LocalLogger]; an
authenticated "pro" session gets the three-filter pipeline; an
authenticated "free" session gets [LocalLogger, EventSender]. -/
theorem c1_pipeline_composition_witness :
    composePipeline true none "free" "https://u" "d/t.jsonl"
      = [PipelineFilterKind.localLogger (kmCommandsLogPath "d/t.jsonl")]
    ∧ composePipeline false (some tokPro) "pro" "https://u" "d/t.jsonl"
      = [PipelineFilterKind.localLogger "d/t.jsonl",
         PipelineFilterKind.eventSender "https://u/api/events/telemetry" tokPro,
         PipelineFilterKind.riskAnalysis "https://u/api/risk/analyze"
           (4/5 : ℚ)]
    ∧ composePipeline false (some tokFree) "free" "https://u" "d/t.jsonl"
      = [PipelineFilterKind.localLogger "d/t.jsonl",
         PipelineFilterKind.eventSender "https://u/api/events/telemetry"
           tokFree] :=
  ⟨c1_pipeline_composition.1 true none "free" "https://u" "d/t.jsonl"
     (Or.inl rfl),
   c1_pipeline_composition.2.1 tokPro "pro" "https://u" "d/t.jsonl"
     (by decide),
   c1_pipeline_composition.2.2 tokFree "https://u" "d/t.jsonl"⟩

/-- C7: the resolved tier follows explicit override > token claim tier >
"free"; on any authentication failure (no valid cached token and a
failed exchange, or an unavailable cache store) the result is
(None, "free") and the monitor proceeds to launch through the local-only
pipeline rather than failing. -/
theorem c7_tier_resolution :
    (∀ (ov : Option String) (tok : JwtToken) (o : String),
       ov = some o → resolveTier ov (some tok) = (o, some tok))
    ∧ (∀ tok : JwtToken,
       resolveTier none (some tok) = (tok.claims.tier.getD "free", some tok))
    ∧ (∀ ov : Option String, resolveTier ov none = ("free", none))
    ∧ (∀ (env : TokenCacheEnv) (now : Nat) (e : String),
       validCachedToken env now = none →
       getJwtTokenWithCache env now (Except.error e) = none)
    ∧ (∀ (ctx : ProxyContext) (runChild : ProxyRequest → Except String Unit),
       monitorExec [localLoggerFilter] ctx runChild = runChild ctx.request) := by
  refine ⟨?_, ?_, ?_, ?_, ?_⟩
  · intro ov tok o h
    subst h
    rfl
  · intro tok
    cases h : tok.claims.tier with
    | none => simp [resolveTier, h, Option.orElse]
    | some c => simp [resolveTier, h, Option.orElse]
  · intro ov
    rfl
  · intro env now e h
    rcases env with ⟨init, ce, load⟩
    cases init with
    | error _ => rfl
    | ok _ =>
      cases ce with
      | false => simp [getJwtTokenWithCache]
      | true =>
        cases load with
        | error _ => simp [getJwtTokenWithCache]
        | ok cached =>
          simp only [validCachedToken, if_true] at h
          by_cases hexp : isTokenExpired cached now
          · simp [getJwtTokenWithCache, hexp]
          · simp [hexp] at h
  · intro ctx runChild
    rfl

/-- Witness for C7: override wins over a "free" claim; a claimed tier is
used when no override is given; a failed exchange with an empty cache
resolves to (None, "free"); the monitor still hands the request to the
child runner. -/
theorem c7_tier_resolution_witness :
    resolveTier (some "enterprise") (some tokFree)
      = ("enterprise", some tokFree)
    ∧ resolveTier none (some tokPro) = ("pro", some tokPro)
    ∧ resolveTier none none = ("free", none)
    ∧ getJwtTokenWithCache
        { init := Except.ok (), cacheExists := false,
          load := Except.error "empty" }
        1000 (Except.error "network") = none
    ∧ monitorExec [localLoggerFilter] ctx0 (fun _ => Except.ok ())
      = Except.ok () :=
  ⟨c7_tier_resolution.1 (some "enterprise") tokFree "enterprise" rfl,
   c7_tier_resolution.2.1 tokPro,
   c7_tier_resolution.2.2.1 none,
   c7_tier_resolution.2.2.2.1
     { init := Except.ok (), cacheExists := false, load := Except.error "empty" }
     1000 "network" rfl,
   c7_tier_resolution.2.2.2.2 ctx0 (fun _ => Except.ok ())⟩

/-- A spy filter: always allows. -/
def spyF : Filter :=
  { check := fun _ => Except.ok FilterDecision.allow
    is_blocking := false
    name := "spy" }

/-- A mock filter that always blocks with reason "nope". -/
def blockF : Filter :=
  { check := fun _ => Except.ok (FilterDecision.block "nope")
    is_blocking := true
    name := "mock" }

/-- The rewritten request used by the transform mock. -/
def nr0 : ProxyRequest :=
  { command := "safe", args := ["x"], metadata := [] }

/-- A mock filter that always transforms to `nr0`. -/
def transformF : Filter :=
  { check := fun _ => Except.ok (FilterDecision.transform nr0)
    is_blocking := true
    name := "rewriter" }

/-- A blocking filter whose check always fails. -/
def failHardF : Filter :=
  { check := fun _ => Except.error "net down"
    is_blocking := true
    name := "strictcheck" }

/-- A non-blocking filter whose check always fails. -/
def failSoftF : Filter :=
  { check := fun _ => Except.error "net down"
    is_blocking := false
    name := "telemetry" }

/-- C2: a Block{reason} at position k makes execute return an error
containing that filter's name and the reason; no later filter's check is
invoked, and the launch command is never executed. -/
theorem c2_block_short_circuits :
    ∀ (pre post : List Filter) (f : Filter) (ctx ctx' : ProxyContext)
      (reason : String),
      threadCtx pre ctx = some ctx' →
      f.check ctx' = Except.ok (FilterDecision.block reason) →
      executeFrom (pre ++ f :: post) ctx
        = Except.error ("Request blocked by " ++ f.name ++ ": " ++ reason)
      ∧ containsStr ("Request blocked by " ++ f.name ++ ": " ++ reason) f.name
      ∧ containsStr ("Request blocked by " ++ f.name ++ ": " ++ reason) reason
      ∧ invokedTrace (pre ++ f :: post) ctx
        = invokedTrace pre ctx ++ [(f.name, ctx')]
      ∧ launchedRequest (pre ++ f :: post) ctx = none := by
  intro pre post f ctx ctx' reason hpre hchk
  have hexec : executeFrom (pre ++ f :: post) ctx
      = Except.error ("Request blocked by " ++ f.name ++ ": " ++ reason) := by
    rw [executeFrom_append pre (f :: post) ctx ctx' hpre]
    simp [executeFrom, hchk]
  refine ⟨hexec, ?_, ?_, ?_, ?_⟩
  · exact ⟨"Request blocked by ", ": " ++ reason,
      by simp [String.append_assoc]⟩
  · exact ⟨"Request blocked by " ++ f.name ++ ": ", "",
      by simp [String.append_assoc]⟩
  · rw [invokedTrace_append pre (f :: post) ctx ctx' hpre]
    simp [invokedTrace, hchk]
  · simp [launchedRequest, hexec]

/-- Witness for C2: a blocking mock before a spy filter aborts with the
mock's name and reason, never invokes the spy, and launches nothing. -/
theorem c2_block_short_circuits_witness :
    executeFrom [blockF, spyF] ctx0
      = Except.error ("Request blocked by " ++ blockF.name ++ ": " ++ "nope")
    ∧ invokedTrace [blockF, spyF] ctx0
      = invokedTrace ([] : List Filter) ctx0 ++ [(blockF.name, ctx0)]
    ∧ launchedRequest [blockF, spyF] ctx0 = none := by
  have h := c2_block_short_circuits [] [spyF] blockF ctx0 ctx0 "nope" rfl rfl
  exact ⟨h.1, h.2.2.2.1, h.2.2.2.2⟩

/-- C3: a Transform{new_request} at position k makes execution continue
from a context whose request is new_request, so later filters observe
the transformed request; when no later filter blocks, transforms or
fails blockingly on it, every later filter is invoked with the
transformed request and execute returns new_request. -/
theorem c3_transform_propagation :
    ∀ (pre post : List Filter) (f : Filter) (ctx ctx' : ProxyContext)
      (nr : ProxyRequest),
      threadCtx pre ctx = some ctx' →
      f.check ctx' = Except.ok (FilterDecision.transform nr) →
      executeFrom (pre ++ f :: post) ctx
        = executeFrom post { ctx' with request := nr }
      ∧ ((∀ g ∈ post,
            g.check { ctx' with request := nr } = Except.ok FilterDecision.allow
            ∨ (g.is_blocking = false
               ∧ ∃ e, g.check { ctx' with request := nr } = Except.error e)) →
          executeFrom (pre ++ f :: post) ctx = Except.ok nr
          ∧ invokedTrace (pre ++ f :: post) ctx
            = invokedTrace pre ctx
              ++ (f.name, ctx')
                :: post.map (fun g => (g.name, { ctx' with request := nr }))
          ∧ ∀ p ∈ post.map (fun g => (g.name, { ctx' with request := nr })),
              p.2.request = nr) := by
  intro pre post f ctx ctx' nr hpre hchk
  have hcont : executeFrom (pre ++ f :: post) ctx
      = executeFrom post { ctx' with request := nr } := by
    rw [executeFrom_append pre (f :: post) ctx ctx' hpre]
    simp [executeFrom, hchk]
  refine ⟨hcont, ?_⟩
  intro hallow
  have hrun := allowRun post { ctx' with request := nr } hallow
  refine ⟨?_, ?_, ?_⟩
  · rw [hcont, hrun.1]
  · rw [invokedTrace_append pre (f :: post) ctx ctx' hpre]
    simp only [invokedTrace, hchk]
    rw [hrun.2]
  · intro p hp
    rcases List.mem_map.mp hp with ⟨g, _, rfl⟩
    rfl

/-- Witness for C3: a transforming mock followed by a spy: the spy is
invoked with the rewritten request and execute returns it. -/
theorem c3_transform_propagation_witness :
    executeFrom [transformF, spyF] ctx0 = Except.ok nr0
    ∧ invokedTrace [transformF, spyF] ctx0
      = invokedTrace ([] : List Filter) ctx0
        ++ (transformF.name, ctx0)
          :: [spyF].map (fun g => (g.name, { ctx0 with request := nr0 }))
    ∧ ∀ p ∈ [spyF].map (fun g => (g.name, { ctx0 with request := nr0 })),
        p.2.request = nr0 := by
  have h := (c3_transform_propagation [] [spyF] transformF ctx0 ctx0 nr0
    rfl rfl).2 (by
      intro g hg
      simp only [List.mem_singleton] at hg
      subst hg
      exact Or.inl rfl)
  exact h

/-- C4: a failing check on a blocking filter aborts with an error naming
the filter and nothing executes; on a non-blocking filter the error is
discarded and execution continues as if the filter had allowed — with
every filter failing and non-blocking, execute returns the initial
request unchanged. -/
theorem c4_check_failure_policy :
    (∀ (pre post : List Filter) (f : Filter) (ctx ctx' : ProxyContext)
       (e : String),
       threadCtx pre ctx = some ctx' →
       f.check ctx' = Except.error e →
       f.is_blocking = true →
       executeFrom (pre ++ f :: post) ctx
         = Except.error ("Filter " ++ f.name ++ " failed: " ++ e)
       ∧ containsStr ("Filter " ++ f.name ++ " failed: " ++ e) f.name
       ∧ invokedTrace (pre ++ f :: post) ctx
         = invokedTrace pre ctx ++ [(f.name, ctx')]
       ∧ launchedRequest (pre ++ f :: post) ctx = none)
    ∧ (∀ (pre post : List Filter) (f : Filter) (ctx ctx' : ProxyContext)
       (e : String),
       threadCtx pre ctx = some ctx' →
       f.check ctx' = Except.error e →
       f.is_blocking = false →
       executeFrom (pre ++ f :: post) ctx = executeFrom post ctx')
    ∧ (∀ (fs : List Filter) (ctx : ProxyContext),
       (∀ g ∈ fs,
          g.is_blocking = false ∧ ∀ c, ∃ e, g.check c = Except.error e) →
       executeFrom fs ctx = Except.ok ctx.request) := by
  refine ⟨?_, ?_, ?_⟩
  · intro pre post f ctx ctx' e hpre hchk hb
    have hexec : executeFrom (pre ++ f :: post) ctx
        = Except.error ("Filter " ++ f.name ++ " failed: " ++ e) := by
      rw [executeFrom_append pre (f :: post) ctx ctx' hpre]
      simp [executeFrom, hchk, hb]
    refine ⟨hexec, ?_, ?_, ?_⟩
    · exact ⟨"Filter ", " failed: " ++ e, by simp [String.append_assoc]⟩
    · rw [invokedTrace_append pre (f :: post) ctx ctx' hpre]
      simp [invokedTrace, hchk, hb]
    · simp [launchedRequest, hexec]
  · intro pre post f ctx ctx' e hpre hchk hb
    rw [executeFrom_append pre (f :: post) ctx ctx' hpre]
    simp [executeFrom, hchk, hb]
  · intro fs ctx h
    exact (allowRun fs ctx fun g hg =>
      Or.inr ⟨(h g hg).1, (h g hg).2 ctx⟩).1

/-- Witness for C4: a blocking failing filter aborts naming itself and
launches nothing; a pipeline of two failing non-blocking filters returns
the initial request unchanged. -/
theorem c4_check_failure_policy_witness :
    executeFrom [failHardF, spyF] ctx0
      = Except.error ("Filter " ++ failHardF.name ++ " failed: " ++ "net down")
    ∧ launchedRequest [failHardF, spyF] ctx0 = none
    ∧ executeFrom [failSoftF, failSoftF] ctx0 = Except.ok ctx0.request := by
  have h1 := c4_check_failure_policy.1 [] [spyF] failHardF ctx0 ctx0
    "net down" rfl rfl rfl
  have h3 := c4_check_failure_policy.2.2 [failSoftF, failSoftF] ctx0 (by
    intro g hg
    simp at hg
    subst hg
    exact ⟨rfl, fun c => ⟨"net down", rfl⟩⟩)
  exact ⟨h1.1, h1.2.2.2, h3⟩

end KmCli
